import Mathlib

/-!
Verification development for the CSP plastic-pyrolysis plant simulation
(`src/App.jsx`).  The simulation engine is shallowly embedded: JavaScript
numbers are modelled as exact rationals (`ℚ`); `Math.sin` and `Math.PI` are
modelled as explicit parameters (`sinF : ℚ → ℚ`, `piQ : ℚ`) since the claims
under study do not depend on the exact values of the trigonometric functions;
each call to `Math.random()` is modelled as a rational draw supplied in a
`TickEnv` record, one field per call site.  React `useState` state is gathered
into a `SimState` record; one firing of the `setInterval` callback becomes the
pure function `tick`, with the crucial property (preserved from the source)
that all reads inside a tick see the pre-tick state (the closure values), and
the queued functional updates produce the post-tick state.
-/

/-- Entry of the `SOLAR_DATA` catalog (App.jsx lines 5-18). -/
structure Location where
  dni : ℚ
  lat : ℚ
  lon : ℚ
  tz : ℚ
deriving DecidableEq

/-- Entry of the `PLASTIC_TYPES` catalog (App.jsx lines 21-72). -/
structure Plastic where
  name : String
  h2_yield : ℚ
  carbon_yield : ℚ
  oil_yield : ℚ
  gas_yield : ℚ
  optimal_temp : ℚ
  color : String
  description : String
deriving DecidableEq

/-- `SOLAR_DATA` (App.jsx lines 5-18), keyed association list. -/
def SOLAR_DATA : List (String × Location) :=
  [ ("Riyadh, Saudi Arabia", { dni := 6.8, lat := 24.7, lon := 46.7, tz := 3 }),
    ("Phoenix, USA", { dni := 7.2, lat := 33.4, lon := -112.1, tz := -7 }),
    ("Seville, Spain", { dni := 5.9, lat := 37.4, lon := -5.9, tz := 1 }),
    ("Dubai, UAE", { dni := 6.5, lat := 25.3, lon := 55.3, tz := 4 }),
    ("Las Vegas, USA", { dni := 7.5, lat := 36.2, lon := -115.1, tz := -8 }),
    ("Alice Springs, Australia", { dni := 7.3, lat := -23.7, lon := 133.9, tz := 9.5 }),
    ("Almeria, Spain", { dni := 6.4, lat := 36.8, lon := -2.4, tz := 1 }),
    ("Cairo, Egypt", { dni := 6.2, lat := 30.0, lon := 31.2, tz := 2 }),
    ("Atacama, Chile", { dni := 8.5, lat := -23.6, lon := -70.4, tz := -4 }),
    ("Ouarzazate, Morocco", { dni := 6.7, lat := 30.9, lon := -6.9, tz := 0 }),
    ("Tucson, USA", { dni := 7.0, lat := 32.2, lon := -110.9, tz := -7 }),
    ("Jodhpur, India", { dni := 6.3, lat := 26.3, lon := 73.0, tz := 5.5 }) ]

/-- `PLASTIC_TYPES['HDPE']` (App.jsx lines 22-31). -/
def HDPE : Plastic :=
  { name := "High-Density Polyethylene", h2_yield := 168, carbon_yield := 0.25,
    oil_yield := 0.15, gas_yield := 0.10, optimal_temp := 850,
    color := "#3b82f6", description := "Bottles, containers" }

/-- `PLASTIC_TYPES['LDPE']` (App.jsx lines 32-41). -/
def LDPE : Plastic :=
  { name := "Low-Density Polyethylene", h2_yield := 175, carbon_yield := 0.22,
    oil_yield := 0.18, gas_yield := 0.12, optimal_temp := 850,
    color := "#06b6d4", description := "Bags, films" }

/-- `PLASTIC_TYPES['PP']` (App.jsx lines 42-51). -/
def PP : Plastic :=
  { name := "Polypropylene", h2_yield := 165, carbon_yield := 0.26,
    oil_yield := 0.16, gas_yield := 0.11, optimal_temp := 850,
    color := "#8b5cf6", description := "Containers, textiles" }

/-- `PLASTIC_TYPES['PS']` (App.jsx lines 52-61). -/
def PS : Plastic :=
  { name := "Polystyrene", h2_yield := 95, carbon_yield := 0.48,
    oil_yield := 0.20, gas_yield := 0.08, optimal_temp := 900,
    color := "#ec4899", description := "Foam, packaging" }

/-- `PLASTIC_TYPES['Mixed']` (App.jsx lines 62-71). -/
def Mixed : Plastic :=
  { name := "Mixed Plastics", h2_yield := 150, carbon_yield := 0.30,
    oil_yield := 0.17, gas_yield := 0.10, optimal_temp := 850,
    color := "#f59e0b", description := "Municipal waste" }

/-- `PLASTIC_TYPES` (App.jsx lines 21-72), keyed association list. -/
def PLASTIC_TYPES : List (String × Plastic) :=
  [ ("HDPE", HDPE), ("LDPE", LDPE), ("PP", PP), ("PS", PS), ("Mixed", Mixed) ]

/-- The `CONSTANTS` object (App.jsx lines 74-87). -/
structure Constants where
  HELIOSTAT_AREA : ℚ
  HELIOSTAT_EFFICIENCY : ℚ
  RECEIVER_EFFICIENCY : ℚ
  SALT_TEMP_HOT : ℚ
  SALT_TEMP_COLD : ℚ
  SALT_HEAT_CAPACITY : ℚ
  SALT_DENSITY : ℚ
  HEAT_LOSS_PER_HOUR : ℚ
  PYROLYSIS_ENERGY : ℚ
  HELIOSTAT_COUNT : ℚ
  REACTOR_CAPACITY : ℚ
  STORAGE_TANK_VOLUME : ℚ

/-- `CONSTANTS` values (App.jsx lines 74-87). -/
def CONSTANTS : Constants :=
  { HELIOSTAT_AREA := 115, HELIOSTAT_EFFICIENCY := 0.68, RECEIVER_EFFICIENCY := 0.88,
    SALT_TEMP_HOT := 565, SALT_TEMP_COLD := 290, SALT_HEAT_CAPACITY := 1.55,
    SALT_DENSITY := 1800, HEAT_LOSS_PER_HOUR := 0.02, PYROLYSIS_ENERGY := 450,
    HELIOSTAT_COUNT := 2127, REACTOR_CAPACITY := 500, STORAGE_TANK_VOLUME := 12000 }

/-- `SPEED_OPTIONS` (App.jsx lines 89-95), keyed association list of minute
multipliers. -/
def SPEED_OPTIONS : List (String × Nat) :=
  [ ("Real-time (1 day = 24 hours)", 1),
    ("Fast (1 day = 2 hours)", 12),
    ("Very Fast (1 day = 30 min)", 48),
    ("Ultra Fast (1 day = 20 min)", 72),
    ("Extreme (1 day = 10 min)", 144) ]

/-- JavaScript `x || d` on an optional number (`undefined` maps to `none`,
and `0` is falsy, so both yield the default). -/
def jsOr (x : Option ℚ) (d : ℚ) : ℚ :=
  match x with
  | some v => if v = 0 then d else v
  | none => d

/-- JavaScript `v || d` on a number (`0` is falsy). -/
def jsOrR (v d : ℚ) : ℚ := if v = 0 then d else v

/-- JavaScript `x || d` on an optional natural number. -/
def jsOrNat (x : Option Nat) (d : Nat) : Nat :=
  match x with
  | some v => if v = 0 then d else v
  | none => d

/-- Result record of `calculateSunParameters` (App.jsx lines 149-191).  The
source omits `sunrise`/`sunset` in the night branch (they are `undefined`
there and defaulted by every reader); here they always carry their values. -/
structure SunParams where
  elevation : ℚ
  dni : ℚ
  isDaytime : Bool
  sunrise : ℚ
  sunset : ℚ
deriving DecidableEq

/-- `hourDecimal` (App.jsx line 150): `(hour || 0) + (minute || 0) / 60`. -/
def hourDecimalOf (hour minute : ℚ) : ℚ := jsOrR hour 0 + jsOrR minute 0 / 60

/-- `seasonalOffset` (App.jsx line 153):
`Math.sin(((dayOfYear || 1) - 81) / 365 * 2 * Math.PI) * 1.5`. -/
def seasonalOffsetOf (sinF : ℚ → ℚ) (piQ dayOfYear : ℚ) : ℚ :=
  sinF ((jsOrR dayOfYear 1 - 81) / 365 * 2 * piQ) * 1.5

/-- `latitudeFactor` (App.jsx line 154): `Math.abs(locationData?.lat || 0) / 90`. -/
def latitudeFactorOf (loc : Option Location) : ℚ :=
  |jsOr (loc.map Location.lat) 0| / 90

/-- `sunrise` (App.jsx line 156). -/
def sunriseOf (sinF : ℚ → ℚ) (piQ : ℚ) (loc : Option Location) (dayOfYear : ℚ) : ℚ :=
  6 - seasonalOffsetOf sinF piQ dayOfYear * latitudeFactorOf loc

/-- `sunset` (App.jsx line 157). -/
def sunsetOf (sinF : ℚ → ℚ) (piQ : ℚ) (loc : Option Location) (dayOfYear : ℚ) : ℚ :=
  18 + seasonalOffsetOf sinF piQ dayOfYear * latitudeFactorOf loc

/-- `normalizedHour` (App.jsx lines 164-165): position in the day length. -/
def normalizedHourOf (sinF : ℚ → ℚ) (piQ : ℚ) (loc : Option Location)
    (hour minute dayOfYear : ℚ) : ℚ :=
  (hourDecimalOf hour minute - sunriseOf sinF piQ loc dayOfYear) /
    (sunsetOf sinF piQ loc dayOfYear - sunriseOf sinF piQ loc dayOfYear)

/-- `timeOfDayFactor` (App.jsx line 174): `Math.sin(normalizedHour * Math.PI)`. -/
def timeOfDayFactorOf (sinF : ℚ → ℚ) (piQ : ℚ) (loc : Option Location)
    (hour minute dayOfYear : ℚ) : ℚ :=
  sinF (normalizedHourOf sinF piQ loc hour minute dayOfYear * piQ)

/-- `baseDNI` (App.jsx line 173): `(locationData?.dni || 6.0) * 1000 / 8`. -/
def baseDNIOf (loc : Option Location) : ℚ :=
  jsOr (loc.map Location.dni) 6.0 * 1000 / 8

/-- `seasonalFactor` (App.jsx line 177):
`1 + Math.sin((dayOfYear - 81) / 365 * 2 * Math.PI) * 0.3`. -/
def seasonalFactorOf (sinF : ℚ → ℚ) (piQ dayOfYear : ℚ) : ℚ :=
  1 + sinF ((dayOfYear - 81) / 365 * 2 * piQ) * 0.3

/-- `cloudFactor` (App.jsx line 180): `1 - (cloudCover / 100) * 0.7`. -/
def cloudFactorOf (cloudCover : ℚ) : ℚ := 1 - cloudCover / 100 * 0.7

/-- `dni` before flooring (App.jsx line 182). -/
def dniRawOf (sinF : ℚ → ℚ) (piQ : ℚ) (loc : Option Location)
    (cloudCover hour minute dayOfYear : ℚ) : ℚ :=
  baseDNIOf loc * timeOfDayFactorOf sinF piQ loc hour minute dayOfYear *
    seasonalFactorOf sinF piQ dayOfYear * cloudFactorOf cloudCover * 1.4

/-- `elevation` (App.jsx lines 166-170):
`Math.sin(normalizedHour * Math.PI) * 70 * latitudeCorrection`. -/
def elevationOf (sinF : ℚ → ℚ) (piQ : ℚ) (loc : Option Location)
    (hour minute dayOfYear : ℚ) : ℚ :=
  sinF (normalizedHourOf sinF piQ loc hour minute dayOfYear * piQ) * 70 *
    (1 - |jsOr (loc.map Location.lat) 0| / 90 * 0.3)

/-- `calculateSunParameters` (App.jsx lines 149-191), with `Math.sin` and
`Math.PI` abstracted as `sinF` and `piQ`, and the component closure values
(`locationData`, `cloudCover`) passed explicitly. -/
def calculateSunParameters (sinF : ℚ → ℚ) (piQ : ℚ) (loc : Option Location)
    (cloudCover hour minute dayOfYear : ℚ) : SunParams :=
  if hourDecimalOf hour minute < sunriseOf sinF piQ loc dayOfYear ∨
      sunsetOf sinF piQ loc dayOfYear < hourDecimalOf hour minute then
    { elevation := 0, dni := 0, isDaytime := false,
      sunrise := sunriseOf sinF piQ loc dayOfYear,
      sunset := sunsetOf sinF piQ loc dayOfYear }
  else
    { elevation := elevationOf sinF piQ loc hour minute dayOfYear,
      dni := max 0 (dniRawOf sinF piQ loc cloudCover hour minute dayOfYear),
      isDaytime := true,
      sunrise := sunriseOf sinF piQ loc dayOfYear,
      sunset := sunsetOf sinF piQ loc dayOfYear }

/-- The `heliostats` state record (App.jsx lines 115-120). -/
structure Heliostats where
  operational : ℚ
  maintenance : ℚ
  cleaning_needed : ℚ
  faulty : ℚ
deriving DecidableEq

/-- `calculateThermalPower` (App.jsx lines 194-204); closure values
(`heliostats`, `windSpeed`) passed explicitly. -/
def calculateThermalPower (heliostats : Heliostats) (windSpeed dni : ℚ) : ℚ :=
  let activeHeliostats := heliostats.operational
  let windEffect : ℚ := if 10 < windSpeed then 0.95 else 1.0
  let totalArea := activeHeliostats * CONSTANTS.HELIOSTAT_AREA
  let opticalPower := totalArea * dni * CONSTANTS.HELIOSTAT_EFFICIENCY * windEffect
  let thermalPower := opticalPower * CONSTANTS.RECEIVER_EFFICIENCY
  thermalPower / 1000000

/-- Result record of `processPyrolysis` (App.jsx lines 221-228). -/
structure PyroProducts where
  plastic : ℚ
  hydrogen : ℚ
  carbon : ℚ
  wax : ℚ
  waste : ℚ
  rate : ℚ
deriving DecidableEq

/-- `processPyrolysis` (App.jsx lines 207-229); the closure value
`plasticData` passed explicitly. -/
def processPyrolysis (plasticData : Plastic) (thermalPowerMW deltaTime : ℚ) : PyroProducts :=
  let requiredPowerPerKg := CONSTANTS.PYROLYSIS_ENERGY / 3600
  let maxPlasticRate := thermalPowerMW * 1000 / requiredPowerPerKg
  let actualRate := min maxPlasticRate CONSTANTS.REACTOR_CAPACITY
  let plasticProcessed := actualRate * (deltaTime / 3600)
  let h2_mmol := plasticProcessed * 1000 * plasticData.h2_yield
  let h2_kg := h2_mmol * 2.016 / 1000000
  let carbon_kg := plasticProcessed * plasticData.carbon_yield
  let wax_kg := plasticProcessed * plasticData.oil_yield
  let waste_kg := plasticProcessed * plasticData.gas_yield
  { plastic := plasticProcessed, hydrogen := h2_kg, carbon := carbon_kg,
    wax := wax_kg, waste := waste_kg, rate := actualRate }

/-- The lifetime `production` totals state record (App.jsx lines 127-133). -/
structure Production where
  hydrogen : ℚ
  carbon : ℚ
  wax : ℚ
  waste : ℚ
  totalPlasticProcessed : ℚ
deriving DecidableEq

/-- The `dailyStats` state record (App.jsx lines 135-141). -/
structure DailyStats where
  energyCollected : ℚ
  plasticProcessed : ℚ
  hydrogenProduced : ℚ
  carbonProduced : ℚ
  heatLoss : ℚ
deriving DecidableEq

/-- All-zero production totals (initial and reset value). -/
def zeroProduction : Production :=
  { hydrogen := 0, carbon := 0, wax := 0, waste := 0, totalPlasticProcessed := 0 }

/-- All-zero daily stats (initial, reset and day-rollover value). -/
def zeroDailyStats : DailyStats :=
  { energyCollected := 0, plasticProcessed := 0, hydrogenProduced := 0,
    carbonProduced := 0, heatLoss := 0 }

/-- The mutable simulation state: every `useState` cell of the component
(App.jsx lines 105-141) except the configuration selectors and `isRunning`.
`dayOfYear` stands for the day-of-year derived from `currentDate`
(App.jsx line 291); the day rollover advances the date by one day, which we
model as incrementing `dayOfYear` (year wrap-around is not modelled; none of
the verified claims depends on it). -/
structure SimState where
  time : Nat
  currentHour : Nat
  currentMinute : Nat
  dayOfYear : Nat
  cloudCover : ℚ
  windSpeed : ℚ
  heliostats : Heliostats
  reactorTemp : ℚ
  saltHotTemp : ℚ
  saltColdTemp : ℚ
  pyrolysisActive : Bool
  production : Production
  dailyStats : DailyStats
deriving DecidableEq

/-- The read-only configuration selected in the UI: location key, feedstock
data and speed key.  The feedstock is carried as data because the UI offers
exactly the catalog keys and the source dereferences `plasticData` without a
fallback (App.jsx line 145). -/
structure Config where
  locationKey : String
  plasticData : Plastic
  speedKey : String

/-- One tick's random draws, one field per `Math.random()` call site of the
interval callback (App.jsx lines 232-246, 350, 358), together with the
abstracted `Math.sin` and `Math.PI`. -/
structure TickEnv where
  sinF : ℚ → ℚ
  piQ : ℚ
  randCloudEvent : ℚ
  randCloudGrow : ℚ
  randCloudDecay : ℚ
  randWindEvent : ℚ
  randWindValue : ℚ
  randFault : ℚ
  randClean : ℚ

/-- `updateWeather` (App.jsx lines 232-246) as a pure function from the
pre-tick weather and this tick's random draws to the new (cloud, wind) pair. -/
def updateWeather (cloudCover windSpeed : ℚ) (env : TickEnv) : ℚ × ℚ :=
  let cloud' :=
    if env.randCloudEvent < 0.05 then min 100 (cloudCover + env.randCloudGrow * 30)
    else if 0 < cloudCover then max 0 (cloudCover - env.randCloudDecay * 15)
    else cloudCover
  let wind' :=
    if env.randWindEvent < 0.1 then env.randWindValue * 15
    else max 0 (windSpeed * 0.9)
  (cloud', wind')

/-- `speedMultiplier` (App.jsx line 256): `SPEED_OPTIONS[selectedSpeed] || 72`. -/
def speedMultiplierOf (cfg : Config) : Nat :=
  jsOrNat (SPEED_OPTIONS.lookup cfg.speedKey) 72

/-- `newMinute` (App.jsx line 258). -/
def newMinuteOf (cfg : Config) (s : SimState) : Nat :=
  s.currentMinute + speedMultiplierOf cfg

/-- `newHour` after the minute carry (App.jsx lines 259-265). -/
def hourAfterCarry (cfg : Config) (s : SimState) : Nat :=
  if 60 ≤ newMinuteOf cfg s then s.currentHour + newMinuteOf cfg s / 60
  else s.currentHour

/-- `finalMinute` (App.jsx lines 261-265). -/
def minuteAfterCarry (cfg : Config) (s : SimState) : Nat :=
  if 60 ≤ newMinuteOf cfg s then newMinuteOf cfg s % 60
  else newMinuteOf cfg s

/-- Whether this tick crosses the day boundary (App.jsx line 268). -/
def tickRollover (cfg : Config) (s : SimState) : Bool :=
  decide (24 ≤ hourAfterCarry cfg s)

/-- The hour stored back after the optional day rollover (App.jsx line 269). -/
def hourFinal (cfg : Config) (s : SimState) : Nat :=
  if tickRollover cfg s then hourAfterCarry cfg s % 24 else hourAfterCarry cfg s

/-- The daily-stats base for this tick: reset to all-zero on a rollover tick
(App.jsx lines 272-280), the previous stats otherwise. -/
def statsBaseOf (cfg : Config) (s : SimState) : DailyStats :=
  if tickRollover cfg s then zeroDailyStats else s.dailyStats

/-- This tick's sun parameters (App.jsx line 294): evaluated at the updated
hour/minute, the pre-rollover day-of-year, the pre-tick cloud cover, and the
looked-up location. -/
def sunOf (cfg : Config) (env : TickEnv) (s : SimState) : SunParams :=
  calculateSunParameters env.sinF env.piQ (SOLAR_DATA.lookup cfg.locationKey)
    s.cloudCover (hourFinal cfg s : ℚ) (minuteAfterCarry cfg s : ℚ) (s.dayOfYear : ℚ)

/-- This tick's thermal power (App.jsx line 297), from pre-tick heliostats
and wind speed. -/
def thermalPowerOf (cfg : Config) (env : TickEnv) (s : SimState) : ℚ :=
  calculateThermalPower s.heliostats s.windSpeed (sunOf cfg env s).dni

/-- `pyrolysisReady` (App.jsx lines 319-320): compares the feedstock readiness
threshold against the PRE-tick reactor temperature (the closure value of
`reactorTemp`; the queued `setReactorTemp` update has not been applied). -/
def pyroReadyOf (cfg : Config) (s : SimState) : Bool :=
  decide (cfg.plasticData.optimal_temp - 200 < s.reactorTemp)

/-- Whether pyrolysis runs this tick (App.jsx line 323). -/
def pyroRunsOf (cfg : Config) (env : TickEnv) (s : SimState) : Bool :=
  pyroReadyOf cfg s && decide (2 < thermalPowerOf cfg env s)

/-- The products of this tick's pyrolysis call (App.jsx line 324):
`processPyrolysis(thermalPower, 60 * speedMultiplier)`. -/
def productsOf (cfg : Config) (env : TickEnv) (s : SimState) : PyroProducts :=
  processPyrolysis cfg.plasticData (thermalPowerOf cfg env s)
    (60 * (speedMultiplierOf cfg : ℚ))

/-- The new reactor temperature (App.jsx lines 300-307). -/
def reactorTempAfter (cfg : Config) (env : TickEnv) (s : SimState) : ℚ :=
  if 5 < thermalPowerOf cfg env s ∧ (sunOf cfg env s).isDaytime then
    min (s.reactorTemp +
        min (2 * (speedMultiplierOf cfg : ℚ) / 10) (thermalPowerOf cfg env s / 10))
      cfg.plasticData.optimal_temp
  else
    max (s.reactorTemp - 0.5 * (speedMultiplierOf cfg : ℚ) / 10) CONSTANTS.SALT_TEMP_COLD

/-- The new hot-salt temperature (App.jsx lines 310-316). -/
def saltHotTempAfter (cfg : Config) (env : TickEnv) (s : SimState) : ℚ :=
  if 3 < thermalPowerOf cfg env s ∧ (sunOf cfg env s).isDaytime then
    min (s.saltHotTemp + 0.8 * (speedMultiplierOf cfg : ℚ) / 10) CONSTANTS.SALT_TEMP_HOT
  else
    max (s.saltHotTemp - CONSTANTS.HEAT_LOSS_PER_HOUR * (speedMultiplierOf cfg : ℚ) / 60)
      CONSTANTS.SALT_TEMP_COLD

/-- The new production totals (App.jsx lines 326-332): incremented only when
pyrolysis runs this tick. -/
def productionAfter (cfg : Config) (env : TickEnv) (s : SimState) : Production :=
  if pyroRunsOf cfg env s then
    { hydrogen := s.production.hydrogen + (productsOf cfg env s).hydrogen,
      carbon := s.production.carbon + (productsOf cfg env s).carbon,
      wax := s.production.wax + (productsOf cfg env s).wax,
      waste := s.production.waste + (productsOf cfg env s).waste,
      totalPlasticProcessed :=
        s.production.totalPlasticProcessed + (productsOf cfg env s).plastic }
  else s.production

/-- The daily stats after the pyrolysis block (App.jsx lines 334-340): the
energy-collected and product fields are accumulated only inside the
`pyrolysisReady && thermalPower > 2` branch. -/
def dailyStatsAfterPyro (cfg : Config) (env : TickEnv) (s : SimState) : DailyStats :=
  if pyroRunsOf cfg env s then
    { statsBaseOf cfg s with
      energyCollected := (statsBaseOf cfg s).energyCollected +
        thermalPowerOf cfg env s * (speedMultiplierOf cfg : ℚ) / 60,
      plasticProcessed := (statsBaseOf cfg s).plasticProcessed + (productsOf cfg env s).plastic,
      hydrogenProduced := (statsBaseOf cfg s).hydrogenProduced + (productsOf cfg env s).hydrogen,
      carbonProduced := (statsBaseOf cfg s).carbonProduced + (productsOf cfg env s).carbon }
  else statsBaseOf cfg s

/-- The unconditional heat-loss increment (App.jsx lines 344-347), computed
from the PRE-tick hot-salt temperature (the closure value). -/
def heatLossDeltaOf (cfg : Config) (s : SimState) : ℚ :=
  CONSTANTS.HEAT_LOSS_PER_HOUR * (s.saltHotTemp - 20) * 0.01 * (speedMultiplierOf cfg : ℚ) / 60

/-- The daily stats at the end of the tick: heat loss added unconditionally
after the pyrolysis block (App.jsx lines 344-347). -/
def dailyStatsAfter (cfg : Config) (env : TickEnv) (s : SimState) : DailyStats :=
  { dailyStatsAfterPyro cfg env s with
    heatLoss := (dailyStatsAfterPyro cfg env s).heatLoss + heatLossDeltaOf cfg s }

/-- The heliostat field at the end of the tick (App.jsx lines 349-363):
a possible fault event followed by a possible cleaning-needed event. -/
def heliostatsAfter (cfg : Config) (env : TickEnv) (s : SimState) : Heliostats :=
  let h1 :=
    if env.randFault < 0.0001 * (speedMultiplierOf cfg : ℚ) then
      { s.heliostats with
        operational := s.heliostats.operational - 1,
        faulty := s.heliostats.faulty + 1 }
    else s.heliostats
  if env.randClean < 0.001 * (speedMultiplierOf cfg : ℚ) then
    { h1 with cleaning_needed := min (h1.cleaning_needed + 1) (h1.operational * 0.1) }
  else h1

/-- The weather at the end of the tick (App.jsx lines 286-288): `updateWeather`
runs only when the pre-tick `time` is divisible by 6. -/
def weatherAfter (env : TickEnv) (s : SimState) : ℚ × ℚ :=
  if s.time % 6 = 0 then updateWeather s.cloudCover s.windSpeed env
  else (s.cloudCover, s.windSpeed)

/-- One firing of the interval callback (App.jsx lines 252-365) as a pure
state transformer.  Every read is of the pre-tick state (the React closure
values); the record below collects the queued `set*` updates. -/
def tick (cfg : Config) (env : TickEnv) (s : SimState) : SimState :=
  { time := s.time + 1,
    currentHour := hourFinal cfg s,
    currentMinute := minuteAfterCarry cfg s,
    dayOfYear := if tickRollover cfg s then s.dayOfYear + 1 else s.dayOfYear,
    cloudCover := (weatherAfter env s).1,
    windSpeed := (weatherAfter env s).2,
    heliostats := heliostatsAfter cfg env s,
    reactorTemp := reactorTempAfter cfg env s,
    saltHotTemp := saltHotTempAfter cfg env s,
    saltColdTemp := s.saltColdTemp,
    pyrolysisActive := pyroReadyOf cfg s,
    production := productionAfter cfg env s,
    dailyStats := dailyStatsAfter cfg env s }

/-- The initial simulation state (App.jsx lines 105-141; date Jan 15, hence
day-of-year 15). -/
def initialState : SimState :=
  { time := 0, currentHour := 6, currentMinute := 0, dayOfYear := 15,
    cloudCover := 0, windSpeed := 0,
    heliostats := { operational := CONSTANTS.HELIOSTAT_COUNT, maintenance := 0,
                    cleaning_needed := 0, faulty := 0 },
    reactorTemp := 290, saltHotTemp := 420, saltColdTemp := 290,
    pyrolysisActive := false, production := zeroProduction,
    dailyStats := zeroDailyStats }

/-- The RESET button handler (App.jsx lines 1048-1072) as a pure state
transformer: exactly the fields set by the handler change; all other mutable
state (notably `heliostats`, `pyrolysisActive` and the date) is untouched. -/
def resetState (s : SimState) : SimState :=
  { s with
    time := 0, currentHour := 6, currentMinute := 0,
    reactorTemp := 290, saltHotTemp := 420, saltColdTemp := 290,
    cloudCover := 0, windSpeed := 0,
    production := zeroProduction, dailyStats := zeroDailyStats }

/-- A run of the simulation under a fixed configuration: `n` ticks from the
initial state, with per-tick environments `envs`. -/
def run (cfg : Config) (envs : Nat → TickEnv) : Nat → SimState
  | 0 => initialState
  | n + 1 => tick cfg (envs n) (run cfg envs n)

/-- The states reachable from the initial state by any interleaving of ticks
(under arbitrary, possibly changing, configuration and random draws) and
presses of the RESET button. -/
inductive Reachable : SimState → Prop where
  | init : Reachable initialState
  | step : ∀ (cfg : Config) (env : TickEnv) (s : SimState),
      Reachable s → Reachable (tick cfg env s)
  | reset : ∀ (s : SimState), Reachable s → Reachable (resetState s)

/-- A concrete configuration: Riyadh, HDPE, the default Ultra Fast preset
(speed multiplier 72), matching the component's initial selections. -/
def cfgHDPE : Config :=
  { locationKey := "Riyadh, Saudi Arabia", plasticData := HDPE,
    speedKey := "Ultra Fast (1 day = 20 min)" }

/-- A concrete real-time configuration (speed multiplier 1). -/
def cfgRT : Config :=
  { locationKey := "Riyadh, Saudi Arabia", plasticData := HDPE,
    speedKey := "Real-time (1 day = 24 hours)" }

/-- A quiet environment: zero sine (night at every hour of interest except the
interval endpoints), no weather or equipment events. -/
def envZero : TickEnv :=
  { sinF := fun _ => 0, piQ := 0, randCloudEvent := 1, randCloudGrow := 0,
    randCloudDecay := 0, randWindEvent := 1, randWindValue := 0,
    randFault := 1, randClean := 1 }

/-- An environment whose sine is constantly 1/2: daylight around noon with
positive irradiance, no weather or equipment events. -/
def envHalf : TickEnv :=
  { envZero with sinF := fun _ => 1/2, piQ := 3 }

/-- An environment that triggers the heliostat fault event on every tick
(`Math.random()` draw 0 at the fault site) and nothing else. -/
def envFault : TickEnv :=
  { envZero with randFault := 0 }

/-- A run in which every tick fires the heliostat fault event. -/
def faultRun : Nat → SimState
  | 0 => initialState
  | n + 1 => tick cfgHDPE envFault (faultRun n)

/-- A pre-tick state one simulated minute before midnight with nonzero daily
statistics accumulated during the day: the next real-time tick crosses the
day boundary. -/
def s2359 : SimState :=
  { initialState with
    currentHour := 23, currentMinute := 59,
    dailyStats := { energyCollected := 5, plasticProcessed := 5,
                    hydrogenProduced := 5, carbonProduced := 5, heatLoss := 5 } }

/-- A state whose reactor is already hot enough for HDPE pyrolysis. -/
def sReady : SimState := { initialState with reactorTemp := 850 }

/-! ## Helper lemmas -/

/-- The speed multiplier is always positive: the catalog values are nonzero
and the JavaScript `||` fallback maps a zero or missing value to 72. -/
theorem speedMultiplierOf_pos (cfg : Config) : 0 < speedMultiplierOf cfg := by
  unfold speedMultiplierOf jsOrNat
  cases h : SPEED_OPTIONS.lookup cfg.speedKey with
  | none => norm_num
  | some v =>
    dsimp only
    split
    · norm_num
    · exact Nat.pos_of_ne_zero ‹_›

/-- The heliostat update never touches the maintenance count
(App.jsx lines 349-363 update only operational/faulty/cleaning_needed). -/
theorem heliostatsAfter_maintenance (cfg : Config) (env : TickEnv) (s : SimState) :
    (heliostatsAfter cfg env s).maintenance = s.heliostats.maintenance := by
  unfold heliostatsAfter
  split <;> split <;> rfl

/-- The heliostat update preserves the sum operational + faulty: the fault
event moves one unit from operational to faulty, the cleaning event touches
neither. -/
theorem heliostatsAfter_sum (cfg : Config) (env : TickEnv) (s : SimState) :
    (heliostatsAfter cfg env s).operational + (heliostatsAfter cfg env s).faulty =
      s.heliostats.operational + s.heliostats.faulty := by
  unfold heliostatsAfter
  split <;> split <;> dsimp only <;> ring

/-- The faulty count never decreases across a tick. -/
theorem heliostatsAfter_faulty_mono (cfg : Config) (env : TickEnv) (s : SimState) :
    s.heliostats.faulty ≤ (heliostatsAfter cfg env s).faulty := by
  unfold heliostatsAfter
  split <;> split <;> dsimp only <;> linarith

/-- Under `envFault` and the Ultra Fast configuration, every tick fires
exactly the fault event: one operational heliostat becomes faulty. -/
theorem heliostatsAfter_fault (s : SimState) :
    heliostatsAfter cfgHDPE envFault s =
      { s.heliostats with
        operational := s.heliostats.operational - 1,
        faulty := s.heliostats.faulty + 1 } := by
  have hsm : speedMultiplierOf cfgHDPE = 72 := rfl
  unfold heliostatsAfter
  rw [hsm]
  rw [if_neg (by norm_num [envFault, envZero]), if_pos (by norm_num [envFault, envZero])]

/-! ## Claim C6 -/

/-- Claim C6: with feedstock PS (optimal 900°C, hence readiness threshold
700°C, so 850°C is ready), thermal power fixed at 10 MW over one simulated
hour (3600 s), the plastic processed equals
min(10000 kW / (450/3600 kWh/kg), 500 kg/h) × 1 h = 500 kg, and the hydrogen
produced equals plastic_kg × 1000 × 95 mmol/g × 2.016 g/mol / 10⁶ = 95.76 kg. -/
theorem pyrolysis_PS_one_hour_yields :
    PS.optimal_temp - 200 < 850 ∧
    (processPyrolysis PS 10 3600).plastic =
      min (10 * 1000 / ((450 : ℚ) / 3600)) 500 * 1 ∧
    (processPyrolysis PS 10 3600).plastic = 500 ∧
    (processPyrolysis PS 10 3600).hydrogen =
      (processPyrolysis PS 10 3600).plastic * 1000 * 95 * 2.016 / 1000000 ∧
    (processPyrolysis PS 10 3600).hydrogen = 95.76 := by
  refine ⟨by norm_num [PS], ?_, ?_, ?_, ?_⟩ <;>
    norm_num [processPyrolysis, PS, CONSTANTS, min_def]

/-! ## Claim C2 -/

/-- Claim C2 (amended): the RESET control reinitializes the clock, the
temperatures, the weather, the production totals and the daily statistics to
the documented defaults, but it leaves the heliostat field counts, the
pyrolysis-active flag and the simulated date unchanged. -/
theorem reset_reinitializes_listed_fields (s : SimState) :
    (resetState s).time = 0 ∧ (resetState s).currentHour = 6 ∧
    (resetState s).currentMinute = 0 ∧ (resetState s).reactorTemp = 290 ∧
    (resetState s).saltHotTemp = 420 ∧ (resetState s).saltColdTemp = 290 ∧
    (resetState s).cloudCover = 0 ∧ (resetState s).windSpeed = 0 ∧
    (resetState s).production = zeroProduction ∧
    (resetState s).dailyStats = zeroDailyStats ∧
    (resetState s).heliostats = s.heliostats ∧
    (resetState s).pyrolysisActive = s.pyrolysisActive ∧
    (resetState s).dayOfYear = s.dayOfYear :=
  ⟨rfl, rfl, rfl, rfl, rfl, rfl, rfl, rfl, rfl, rfl, rfl, rfl, rfl⟩

/-- Claim C2 is false as stated: after one tick that fires a heliostat fault
event (a reachable state with faulty = 1), pressing RESET leaves the
heliostat field exactly as it was — the faulty count retains its pre-reset
value 1 instead of returning to the documented default 0. -/
theorem reset_retains_heliostat_field :
    Reachable (tick cfgHDPE envFault initialState) ∧
    (resetState (tick cfgHDPE envFault initialState)).heliostats =
      (tick cfgHDPE envFault initialState).heliostats ∧
    (resetState (tick cfgHDPE envFault initialState)).heliostats.faulty = 1 := by
  refine ⟨Reachable.step _ _ _ Reachable.init, rfl, ?_⟩
  show (heliostatsAfter cfgHDPE envFault initialState).faulty = 1
  rw [heliostatsAfter_fault]
  norm_num [initialState]

/-! ## Claim C3 -/

/-- Claim C3 is about required behaviour the code does not implement: on an
unknown location key the catalog lookup yields nothing, yet the solar model
silently substitutes the default annual DNI 6.0 (producing a positive
irradiance, here 1365 W/m², with no configuration error), and an unknown
speed key silently becomes multiplier 72.  (An unknown feedstock key also
yields nothing from the catalog; the source then dereferences it and crashes
rather than reporting a configuration error.) -/
theorem unknown_key_silent_defaults :
    SOLAR_DATA.lookup "Atlantis" = none ∧
    PLASTIC_TYPES.lookup "PVC" = none ∧
    speedMultiplierOf { locationKey := "Atlantis", plasticData := HDPE, speedKey := "Warp" } = 72 ∧
    baseDNIOf (SOLAR_DATA.lookup "Atlantis") = 6.0 * 1000 / 8 ∧
    (calculateSunParameters (fun _ => 1) 3 (SOLAR_DATA.lookup "Atlantis") 0 12 0 81).dni = 1365 := by
  have hnone : SOLAR_DATA.lookup "Atlantis" = none := rfl
  refine ⟨rfl, rfl, rfl, by norm_num [hnone, baseDNIOf, jsOr], ?_⟩
  rw [hnone]
  norm_num [calculateSunParameters, hourDecimalOf, sunriseOf, sunsetOf, seasonalOffsetOf,
    latitudeFactorOf, normalizedHourOf, timeOfDayFactorOf, baseDNIOf, seasonalFactorOf,
    cloudFactorOf, dniRawOf, jsOr, jsOrR, max_def]

/-! ## Claim C10 -/

/-- Claim C10: the heliostat maintenance count is 0 in every reachable state —
it starts at 0 and neither a tick (fault or cleaning event) nor RESET ever
modifies it. -/
theorem maintenance_count_always_zero : ∀ s, Reachable s → s.heliostats.maintenance = 0 := by
  intro s h
  induction h with
  | init => rfl
  | step cfg env s' _ ih =>
    show (heliostatsAfter cfg env s').maintenance = 0
    rw [heliostatsAfter_maintenance]
    exact ih
  | reset s' _ ih => exact ih

/-- Witness for C10 at the initial state. -/
theorem maintenance_count_always_zero_inst : initialState.heliostats.maintenance = 0 :=
  maintenance_count_always_zero initialState Reachable.init

/-! ## Claim C4 -/

/-- Claim C4 (amended): across arbitrarily long runs (including RESET
presses), operational + faulty never exceeds the installed count 2127, and
the faulty and maintenance counts are never negative.  The remaining parts of
the original claim — operational (and hence cleaning-needed) never negative,
and cleaning-needed ≤ 10% of operational — fail; see the counterexample. -/
theorem heliostat_sum_and_nonneg_invariant : ∀ s, Reachable s →
    s.heliostats.operational + s.heliostats.faulty ≤ CONSTANTS.HELIOSTAT_COUNT ∧
    0 ≤ s.heliostats.faulty ∧ 0 ≤ s.heliostats.maintenance := by
  intro s h
  induction h with
  | init => refine ⟨by norm_num [initialState, CONSTANTS], ?_, ?_⟩ <;> norm_num [initialState]
  | step cfg env s' _ ih =>
    obtain ⟨h1, h2, h3⟩ := ih
    refine ⟨?_, ?_, ?_⟩
    · show (heliostatsAfter cfg env s').operational + (heliostatsAfter cfg env s').faulty ≤ _
      rw [heliostatsAfter_sum]
      exact h1
    · exact le_trans h2 (heliostatsAfter_faulty_mono cfg env s')
    · show 0 ≤ (heliostatsAfter cfg env s').maintenance
      rw [heliostatsAfter_maintenance]
      exact h3
  | reset s' _ ih => exact ih

/-- Witness for C4 (amended) at the initial state. -/
theorem heliostat_sum_and_nonneg_invariant_inst :
    initialState.heliostats.operational + initialState.heliostats.faulty ≤
      CONSTANTS.HELIOSTAT_COUNT ∧
    0 ≤ initialState.heliostats.faulty ∧ 0 ≤ initialState.heliostats.maintenance :=
  heliostat_sum_and_nonneg_invariant initialState Reachable.init

/-- Along the all-fault run, operational decreases by exactly one per tick and
cleaning-needed stays 0. -/
theorem faultRun_heliostats (n : Nat) :
    (faultRun n).heliostats.operational = 2127 - (n : ℚ) ∧
    (faultRun n).heliostats.cleaning_needed = 0 := by
  induction n with
  | zero => constructor <;> norm_num [faultRun, initialState, CONSTANTS]
  | succ n ih =>
    obtain ⟨h1, h2⟩ := ih
    have hstep : (faultRun (n + 1)).heliostats =
        heliostatsAfter cfgHDPE envFault (faultRun n) := rfl
    rw [hstep, heliostatsAfter_fault]
    constructor
    · dsimp only
      rw [h1]
      push_cast
      ring
    · exact h2

/-- Every prefix of the all-fault run is reachable. -/
theorem faultRun_reachable (n : Nat) : Reachable (faultRun n) := by
  induction n with
  | zero => exact Reachable.init
  | succ n ih => exact Reachable.step cfgHDPE envFault (faultRun n) ih

/-- Claim C4 is false as stated: after 2128 ticks each of which fires the
heliostat fault event (each fires with probability 0.0072 per tick at the
default speed, so this is a genuine run of the transition system), the
operational count is −1 — negative — and cleaning-needed (= 0) exceeds 10% of
the operational count (= −0.1): the code decrements `operational` with no
floor at zero. -/
theorem heliostat_counts_go_negative :
    Reachable (faultRun 2128) ∧
    (faultRun 2128).heliostats.operational < 0 ∧
    ¬ ((faultRun 2128).heliostats.cleaning_needed ≤
        (faultRun 2128).heliostats.operational * 0.1) := by
  obtain ⟨h1, h2⟩ := faultRun_heliostats 2128
  refine ⟨faultRun_reachable 2128, ?_, ?_⟩
  · rw [h1]; norm_num
  · rw [h1, h2]; norm_num

/-! ## Claim C5 -/

/-- Every feedstock in the catalog has optimal temperature at least the
cold-salt floor. -/
theorem plastic_catalog_optimal_ge (pk : String) (p : Plastic)
    (hp : (pk, p) ∈ PLASTIC_TYPES) : CONSTANTS.SALT_TEMP_COLD ≤ p.optimal_temp := by
  simp only [PLASTIC_TYPES, List.mem_cons, List.not_mem_nil, or_false, Prod.mk.injEq] at hp
  rcases hp with ⟨-, rfl⟩ | ⟨-, rfl⟩ | ⟨-, rfl⟩ | ⟨-, rfl⟩ | ⟨-, rfl⟩ <;>
    norm_num [HDPE, LDPE, PP, PS, Mixed, CONSTANTS]

/-- One tick keeps the reactor temperature inside
[cold-salt floor, optimal temperature]: the heating branch clamps at the
optimal temperature and only adds a nonnegative increment; the cooling branch
clamps at the cold-salt floor and only subtracts. -/
theorem reactorTempAfter_bounds (cfg : Config) (env : TickEnv) (s : SimState)
    (h1 : CONSTANTS.SALT_TEMP_COLD ≤ s.reactorTemp)
    (h2 : s.reactorTemp ≤ cfg.plasticData.optimal_temp)
    (h3 : CONSTANTS.SALT_TEMP_COLD ≤ cfg.plasticData.optimal_temp) :
    CONSTANTS.SALT_TEMP_COLD ≤ reactorTempAfter cfg env s ∧
    reactorTempAfter cfg env s ≤ cfg.plasticData.optimal_temp := by
  have hsm : (0 : ℚ) ≤ (speedMultiplierOf cfg : ℚ) := Nat.cast_nonneg _
  unfold reactorTempAfter
  split
  · next hcond =>
    obtain ⟨htp, -⟩ := hcond
    constructor
    · refine le_min ?_ h3
      have hheat : (0 : ℚ) ≤
          min (2 * (speedMultiplierOf cfg : ℚ) / 10) (thermalPowerOf cfg env s / 10) :=
        le_min (by linarith) (by linarith)
      linarith
    · exact min_le_right _ _
  · constructor
    · exact le_max_right _ _
    · exact max_le (by linarith) h3

/-- Claim C5: for every feedstock in the catalog and every preset time
multiplier, the reactor temperature stays within
[cold-salt floor 290°C, feedstock optimal temperature] after every tick of
every run from the initial state (initial value 290°C), whatever the
irradiance, weather and random draws. -/
theorem reactor_temp_within_bounds (pk : String) (p : Plastic)
    (hp : (pk, p) ∈ PLASTIC_TYPES) (sk : String) (sv : Nat)
    (_hs : (sk, sv) ∈ SPEED_OPTIONS) (lk : String) (envs : Nat → TickEnv) (n : Nat) :
    CONSTANTS.SALT_TEMP_COLD ≤
      (run { locationKey := lk, plasticData := p, speedKey := sk } envs n).reactorTemp ∧
    (run { locationKey := lk, plasticData := p, speedKey := sk } envs n).reactorTemp ≤
      p.optimal_temp := by
  have hopt := plastic_catalog_optimal_ge pk p hp
  induction n with
  | zero =>
    constructor
    · norm_num [run, initialState, CONSTANTS]
    · calc (run { locationKey := lk, plasticData := p, speedKey := sk } envs 0).reactorTemp
          = CONSTANTS.SALT_TEMP_COLD := rfl
        _ ≤ p.optimal_temp := hopt
  | succ n ih =>
    exact reactorTempAfter_bounds { locationKey := lk, plasticData := p, speedKey := sk }
      (envs n) (run { locationKey := lk, plasticData := p, speedKey := sk } envs n) ih.1 ih.2 hopt

/-- Witness for C5: HDPE with the real-time preset, a quiet environment,
after two ticks. -/
theorem reactor_temp_within_bounds_inst :
    CONSTANTS.SALT_TEMP_COLD ≤
      (run { locationKey := "Riyadh, Saudi Arabia", plasticData := HDPE,
             speedKey := "Real-time (1 day = 24 hours)" } (fun _ => envZero) 2).reactorTemp ∧
    (run { locationKey := "Riyadh, Saudi Arabia", plasticData := HDPE,
           speedKey := "Real-time (1 day = 24 hours)" } (fun _ => envZero) 2).reactorTemp ≤
      HDPE.optimal_temp :=
  reactor_temp_within_bounds "HDPE" HDPE (by simp [PLASTIC_TYPES])
    "Real-time (1 day = 24 hours)" 1 (by simp [SPEED_OPTIONS])
    "Riyadh, Saudi Arabia" (fun _ => envZero) 2

/-! ## Claim C9 -/

/-- Claim C9: pyrolysis readiness and the pyrolysisActive flag are evaluated
against the reactor temperature as it was BEFORE this tick's temperature
update (the React closure value): the stored flag equals the pre-tick
comparison; a tick whose pre-tick temperature is at or below the threshold
produces nothing (in particular the tick that first heats past the
threshold); and once the pre-tick temperature is past the threshold, a tick
with thermal power above 2 MW strictly increases production. -/
theorem readiness_uses_pre_update_temp (cfg : Config) (env : TickEnv) (s : SimState) :
    ((tick cfg env s).pyrolysisActive = true ↔
      cfg.plasticData.optimal_temp - 200 < s.reactorTemp) ∧
    (s.reactorTemp ≤ cfg.plasticData.optimal_temp - 200 →
      (tick cfg env s).production = s.production) ∧
    (cfg.plasticData.optimal_temp - 200 < s.reactorTemp → 2 < thermalPowerOf cfg env s →
      s.production.totalPlasticProcessed <
        (tick cfg env s).production.totalPlasticProcessed) := by
  refine ⟨?_, ?_, ?_⟩
  · show pyroReadyOf cfg s = true ↔ _
    simp [pyroReadyOf]
  · intro h
    have hready : pyroReadyOf cfg s = false := by
      simp only [pyroReadyOf, decide_eq_false_iff_not]
      exact not_lt.2 h
    show productionAfter cfg env s = s.production
    simp [productionAfter, pyroRunsOf, hready]
  · intro h1 h2
    have hruns : pyroRunsOf cfg env s = true := by
      simp only [pyroRunsOf, pyroReadyOf, Bool.and_eq_true, decide_eq_true_eq]
      exact ⟨h1, h2⟩
    have hsm : (0 : ℚ) < (speedMultiplierOf cfg : ℚ) := by
      exact_mod_cast speedMultiplierOf_pos cfg
    have htp : (0 : ℚ) < thermalPowerOf cfg env s := by linarith
    have hplastic : 0 < (productsOf cfg env s).plastic := by
      unfold productsOf processPyrolysis
      dsimp only
      apply mul_pos
      · apply lt_min
        · have : CONSTANTS.PYROLYSIS_ENERGY / 3600 = (1/8 : ℚ) := by norm_num [CONSTANTS]
          rw [this]
          positivity
        · norm_num [CONSTANTS]
      · positivity
    show s.production.totalPlasticProcessed < (productionAfter cfg env s).totalPlasticProcessed
    rw [productionAfter, if_pos hruns]
    dsimp only
    linarith

/-- Thermal power of the envHalf tick from the hot-reactor state: about
100 MW. -/
theorem thermalPowerOf_envHalf_sReady :
    thermalPowerOf cfgHDPE envHalf sReady = 25038697299 / 250000000 := by
  have hlook : SOLAR_DATA.lookup cfgHDPE.locationKey =
      some { dni := 6.8, lat := 24.7, lon := 46.7, tz := 3 } := rfl
  have hh : hourFinal cfgHDPE sReady = 7 := rfl
  have hm : minuteAfterCarry cfgHDPE sReady = 12 := rfl
  have habs : |(247 / 10 : ℚ)| = 247 / 10 := abs_of_nonneg (by norm_num)
  simp only [thermalPowerOf, calculateThermalPower, sunOf, hlook, hh, hm]
  norm_num [calculateSunParameters, hourDecimalOf, sunriseOf, sunsetOf, seasonalOffsetOf,
    latitudeFactorOf, normalizedHourOf, timeOfDayFactorOf, baseDNIOf, seasonalFactorOf,
    cloudFactorOf, dniRawOf, jsOr, jsOrR, CONSTANTS, max_def, min_def, habs,
    sReady, initialState, envHalf, envZero]

/-- Witness for C9: on a not-yet-ready tick production is unchanged, and on a
ready tick with ample thermal power production strictly increases. -/
theorem readiness_uses_pre_update_temp_inst :
    (tick cfgHDPE envZero initialState).production = initialState.production ∧
    sReady.production.totalPlasticProcessed <
      (tick cfgHDPE envHalf sReady).production.totalPlasticProcessed :=
  ⟨(readiness_uses_pre_update_temp cfgHDPE envZero initialState).2.1
      (by norm_num [initialState, cfgHDPE, HDPE]),
    (readiness_uses_pre_update_temp cfgHDPE envHalf sReady).2.2
      (by norm_num [sReady, initialState, cfgHDPE, HDPE])
      (by rw [thermalPowerOf_envHalf_sReady]; norm_num)⟩

/-! ## Claim C1 -/

/-- Claim C1 (amended): on every tick heat-loss (computed from the pre-tick
hot-salt temperature above ambient) is accumulated into DailyStats
unconditionally; but energy-collected (from the current thermal power) is
accumulated only on ticks where the reactor is ready AND thermal power
exceeds 2 MW — on all other ticks it is left unchanged. -/
theorem heatLoss_unconditional_energy_conditional (cfg : Config) (env : TickEnv) (s : SimState) :
    (tick cfg env s).dailyStats.heatLoss =
      (statsBaseOf cfg s).heatLoss + heatLossDeltaOf cfg s ∧
    (pyroRunsOf cfg env s = false →
      (tick cfg env s).dailyStats.energyCollected = (statsBaseOf cfg s).energyCollected) ∧
    (pyroRunsOf cfg env s = true →
      (tick cfg env s).dailyStats.energyCollected =
        (statsBaseOf cfg s).energyCollected +
          thermalPowerOf cfg env s * (speedMultiplierOf cfg : ℚ) / 60) := by
  refine ⟨?_, ?_, ?_⟩
  · show (dailyStatsAfter cfg env s).heatLoss = _
    unfold dailyStatsAfter dailyStatsAfterPyro
    split <;> rfl
  · intro h
    show (dailyStatsAfter cfg env s).energyCollected = _
    unfold dailyStatsAfter dailyStatsAfterPyro
    rw [h]
    rfl
  · intro h
    show (dailyStatsAfter cfg env s).energyCollected = _
    unfold dailyStatsAfter dailyStatsAfterPyro
    rw [h]
    rfl

/-- Witness for C1 (amended) on a quiet idle tick from the initial state. -/
theorem heatLoss_unconditional_energy_conditional_inst :
    (tick cfgHDPE envZero initialState).dailyStats.heatLoss =
      (statsBaseOf cfgHDPE initialState).heatLoss + heatLossDeltaOf cfgHDPE initialState ∧
    (tick cfgHDPE envZero initialState).dailyStats.energyCollected =
      (statsBaseOf cfgHDPE initialState).energyCollected :=
  ⟨(heatLoss_unconditional_energy_conditional cfgHDPE envZero initialState).1,
    (heatLoss_unconditional_energy_conditional cfgHDPE envZero initialState).2.1
      (by
        have hready : pyroReadyOf cfgHDPE initialState = false := by
          simp only [pyroReadyOf, decide_eq_false_iff_not]
          norm_num [cfgHDPE, HDPE, initialState]
        simp [pyroRunsOf, hready])⟩

/-- Thermal power of the envHalf tick from the initial state: about 100 MW. -/
theorem thermalPowerOf_envHalf_initial :
    thermalPowerOf cfgHDPE envHalf initialState = 25038697299 / 250000000 := by
  have hlook : SOLAR_DATA.lookup cfgHDPE.locationKey =
      some { dni := 6.8, lat := 24.7, lon := 46.7, tz := 3 } := rfl
  have hh : hourFinal cfgHDPE initialState = 7 := rfl
  have hm : minuteAfterCarry cfgHDPE initialState = 12 := rfl
  have habs : |(247 / 10 : ℚ)| = 247 / 10 := abs_of_nonneg (by norm_num)
  simp only [thermalPowerOf, calculateThermalPower, sunOf, hlook, hh, hm]
  norm_num [calculateSunParameters, hourDecimalOf, sunriseOf, sunsetOf, seasonalOffsetOf,
    latitudeFactorOf, normalizedHourOf, timeOfDayFactorOf, baseDNIOf, seasonalFactorOf,
    cloudFactorOf, dniRawOf, jsOr, jsOrR, CONSTANTS, max_def, min_def, habs,
    initialState, envHalf, envZero]

/-- Claim C1 is false as stated: on the first tick from the initial state in
bright daylight (thermal power ≈ 100 MW > 0) with the reactor still cold, the
tick does NOT accumulate energy-collected — it stays at its previous value —
because the accumulation sits inside the pyrolysis branch; only heat-loss is
accumulated unconditionally. -/
theorem energyCollected_not_accumulated_when_idle :
    0 < thermalPowerOf cfgHDPE envHalf initialState ∧
    pyroReadyOf cfgHDPE initialState = false ∧
    (tick cfgHDPE envHalf initialState).dailyStats.energyCollected =
      initialState.dailyStats.energyCollected := by
  have hready : pyroReadyOf cfgHDPE initialState = false := by
    simp only [pyroReadyOf, decide_eq_false_iff_not]
    norm_num [cfgHDPE, HDPE, initialState]
  have hruns : pyroRunsOf cfgHDPE envHalf initialState = false := by
    simp [pyroRunsOf, hready]
  have hnoroll : tickRollover cfgHDPE initialState = false := rfl
  refine ⟨?_, hready, ?_⟩
  · rw [thermalPowerOf_envHalf_initial]; norm_num
  · show (dailyStatsAfter cfgHDPE envHalf initialState).energyCollected = _
    unfold dailyStatsAfter dailyStatsAfterPyro
    rw [hruns]
    simp [statsBaseOf, hnoroll]

/-! ## Claim C7 -/

/-- Claim C7 (amended): on the tick that crosses the day boundary, DailyStats
is first reset to all-zero and the tick's OWN accumulations are then applied:
after the tick each field equals exactly this tick's contribution (zero for
the production-related fields when pyrolysis is idle, but the heat-loss field
equals this tick's heat-loss increment, which is nonzero whenever the
hot-salt temperature exceeds ambient).  The rollover itself does not alter
the production update: ProductionTotals changes only by the tick's normal
pyrolysis contribution (unchanged when pyrolysis is idle). -/
theorem rollover_resets_then_accumulates (cfg : Config) (env : TickEnv) (s : SimState)
    (h : tickRollover cfg s = true) :
    (tick cfg env s).dailyStats.energyCollected =
      (if pyroRunsOf cfg env s then
        thermalPowerOf cfg env s * (speedMultiplierOf cfg : ℚ) / 60 else 0) ∧
    (tick cfg env s).dailyStats.plasticProcessed =
      (if pyroRunsOf cfg env s then (productsOf cfg env s).plastic else 0) ∧
    (tick cfg env s).dailyStats.hydrogenProduced =
      (if pyroRunsOf cfg env s then (productsOf cfg env s).hydrogen else 0) ∧
    (tick cfg env s).dailyStats.carbonProduced =
      (if pyroRunsOf cfg env s then (productsOf cfg env s).carbon else 0) ∧
    (tick cfg env s).dailyStats.heatLoss = heatLossDeltaOf cfg s ∧
    (pyroRunsOf cfg env s = false → (tick cfg env s).production = s.production) := by
  have hbase : statsBaseOf cfg s = zeroDailyStats := by simp [statsBaseOf, h]
  refine ⟨?_, ?_, ?_, ?_, ?_, ?_⟩
  · show (dailyStatsAfter cfg env s).energyCollected = _
    unfold dailyStatsAfter dailyStatsAfterPyro
    rw [hbase]
    cases hpr : pyroRunsOf cfg env s <;> simp [hpr, zeroDailyStats]
  · show (dailyStatsAfter cfg env s).plasticProcessed = _
    unfold dailyStatsAfter dailyStatsAfterPyro
    rw [hbase]
    cases hpr : pyroRunsOf cfg env s <;> simp [hpr, zeroDailyStats]
  · show (dailyStatsAfter cfg env s).hydrogenProduced = _
    unfold dailyStatsAfter dailyStatsAfterPyro
    rw [hbase]
    cases hpr : pyroRunsOf cfg env s <;> simp [hpr, zeroDailyStats]
  · show (dailyStatsAfter cfg env s).carbonProduced = _
    unfold dailyStatsAfter dailyStatsAfterPyro
    rw [hbase]
    cases hpr : pyroRunsOf cfg env s <;> simp [hpr, zeroDailyStats]
  · show (dailyStatsAfter cfg env s).heatLoss = _
    unfold dailyStatsAfter dailyStatsAfterPyro
    rw [hbase]
    cases hpr : pyroRunsOf cfg env s <;> simp [hpr, zeroDailyStats]
  · intro hpr
    show productionAfter cfg env s = s.production
    simp [productionAfter, hpr]

/-- Witness for C7 (amended) at the real-time tick from 23:59. -/
theorem rollover_resets_then_accumulates_inst :
    (tick cfgRT envZero s2359).dailyStats.energyCollected =
      (if pyroRunsOf cfgRT envZero s2359 then
        thermalPowerOf cfgRT envZero s2359 * (speedMultiplierOf cfgRT : ℚ) / 60 else 0) ∧
    (tick cfgRT envZero s2359).dailyStats.plasticProcessed =
      (if pyroRunsOf cfgRT envZero s2359 then (productsOf cfgRT envZero s2359).plastic else 0) ∧
    (tick cfgRT envZero s2359).dailyStats.hydrogenProduced =
      (if pyroRunsOf cfgRT envZero s2359 then (productsOf cfgRT envZero s2359).hydrogen else 0) ∧
    (tick cfgRT envZero s2359).dailyStats.carbonProduced =
      (if pyroRunsOf cfgRT envZero s2359 then (productsOf cfgRT envZero s2359).carbon else 0) ∧
    (tick cfgRT envZero s2359).dailyStats.heatLoss = heatLossDeltaOf cfgRT s2359 ∧
    (pyroRunsOf cfgRT envZero s2359 = false →
      (tick cfgRT envZero s2359).production = s2359.production) :=
  rollover_resets_then_accumulates cfgRT envZero s2359 rfl

/-- Claim C7 is false as stated: the real-time tick from 23:59 crosses the
day boundary (post-tick hour 0), yet the post-tick DailyStats heat-loss field
is 1/750 MWh ≠ 0, because the same tick's heat-loss accumulation is applied
AFTER the rollover reset. -/
theorem rollover_tick_heatLoss_nonzero :
    tickRollover cfgRT s2359 = true ∧
    (tick cfgRT envZero s2359).currentHour = 0 ∧
    (tick cfgRT envZero s2359).dailyStats.heatLoss = 1 / 750 ∧
    (tick cfgRT envZero s2359).dailyStats.heatLoss ≠ 0 := by
  have hroll : tickRollover cfgRT s2359 = true := rfl
  have hbase : statsBaseOf cfgRT s2359 = zeroDailyStats := by simp [statsBaseOf, hroll]
  have hready : pyroReadyOf cfgRT s2359 = false := by
    simp only [pyroReadyOf, decide_eq_false_iff_not]
    norm_num [cfgRT, HDPE, s2359, initialState]
  have hruns : pyroRunsOf cfgRT envZero s2359 = false := by
    simp [pyroRunsOf, hready]
  have hsm : speedMultiplierOf cfgRT = 1 := rfl
  have hloss : (tick cfgRT envZero s2359).dailyStats.heatLoss = 1 / 750 := by
    show (dailyStatsAfter cfgRT envZero s2359).heatLoss = _
    unfold dailyStatsAfter dailyStatsAfterPyro
    rw [hruns, hbase]
    norm_num [zeroDailyStats, heatLossDeltaOf, CONSTANTS, hsm, s2359, initialState]
  exact ⟨hroll, rfl, hloss, by rw [hloss]; norm_num⟩

/-! ## Claim C8 -/

/-- Claim C8: for a fixed hour, minute, day-of-year and location with the
instant inside daylight (between sunrise and sunset), the returned DNI is
monotonically non-increasing in cloud cover on [0,100]; in particular
DNI(c) ≤ DNI(0).  The sine hypotheses state what holds of the real
`Math.sin` at the daylight instant: the time-of-day half-sine factor is
nonnegative during daylight, and the sine in the seasonal factor is at
least −1. -/
theorem dni_monotone_in_cloud (sinF : ℚ → ℚ) (piQ : ℚ) (loc : Option Location)
    (hour minute dayOfYear c1 c2 : ℚ)
    (hloc : ∀ l, loc = some l → 0 ≤ l.dni)
    (hseason : -1 ≤ sinF ((dayOfYear - 81) / 365 * 2 * piQ))
    (htime : 0 ≤ timeOfDayFactorOf sinF piQ loc hour minute dayOfYear)
    (_hc1 : 0 ≤ c1) (h12 : c1 ≤ c2) (_hc2 : c2 ≤ 100)
    (hday1 : sunriseOf sinF piQ loc dayOfYear ≤ hourDecimalOf hour minute)
    (hday2 : hourDecimalOf hour minute ≤ sunsetOf sinF piQ loc dayOfYear) :
    (calculateSunParameters sinF piQ loc c2 hour minute dayOfYear).dni ≤
      (calculateSunParameters sinF piQ loc c1 hour minute dayOfYear).dni := by
  have hcond : ¬(hourDecimalOf hour minute < sunriseOf sinF piQ loc dayOfYear ∨
      sunsetOf sinF piQ loc dayOfYear < hourDecimalOf hour minute) := by
    push_neg
    exact ⟨hday1, hday2⟩
  rw [calculateSunParameters, if_neg hcond, calculateSunParameters, if_neg hcond]
  dsimp only
  have hB : 0 ≤ baseDNIOf loc := by
    unfold baseDNIOf jsOr
    cases hl : loc with
    | none => norm_num
    | some l =>
      have hd := hloc l hl
      dsimp only [Option.map]
      split
      · norm_num
      · positivity
  have hS : 0 ≤ seasonalFactorOf sinF piQ dayOfYear := by
    unfold seasonalFactorOf
    nlinarith [hseason]
  have hK : 0 ≤ baseDNIOf loc * timeOfDayFactorOf sinF piQ loc hour minute dayOfYear *
      seasonalFactorOf sinF piQ dayOfYear :=
    mul_nonneg (mul_nonneg hB htime) hS
  have hcf : cloudFactorOf c2 ≤ cloudFactorOf c1 := by
    unfold cloudFactorOf
    linarith
  refine max_le_max le_rfl ?_
  unfold dniRawOf
  have hmul := mul_le_mul_of_nonneg_left hcf hK
  exact mul_le_mul_of_nonneg_right hmul (by norm_num)

/-- Witness for C8: noon at the default location on day 81 with a constant
sine of 1/2, comparing cloud covers 0 and 50. -/
theorem dni_monotone_in_cloud_inst :
    (calculateSunParameters (fun _ => 1/2) 3 none 50 12 0 81).dni ≤
      (calculateSunParameters (fun _ => 1/2) 3 none 0 12 0 81).dni :=
  dni_monotone_in_cloud (fun _ => 1/2) 3 none 12 0 81 0 50
    (fun l h => Option.noConfusion h)
    (by norm_num)
    (by norm_num [timeOfDayFactorOf])
    (by norm_num) (by norm_num) (by norm_num)
    (by norm_num [sunriseOf, seasonalOffsetOf, latitudeFactorOf, jsOr, jsOrR, hourDecimalOf])
    (by norm_num [sunsetOf, seasonalOffsetOf, latitudeFactorOf, jsOr, jsOrR, hourDecimalOf])
